import Mathlib

/-!
Verification of `scripts/create_icon.py`.

The script is a fixed, non-branching sequence: a per-size render loop (each
render is a child process run with a failure check), a density-variant copy
loop guarded by a source-existence test, and a single container-conversion
invocation whose exit status selects between a success banner and an error
print.  We embed it as explicit state passing over a small filesystem model;
subprocess outcomes (child exit codes, `cp` exit codes, conversion exit code
and stderr) are supplied by an environment record.  `runScriptChecked` over
`FullEnv` keeps every subprocess failure path; `runScript` over `Env` is its
cp-success projection (`runScriptChecked_eq_of_cpOk`), sufficient for the
claims whose scenarios involve no failing copy.  Drawing measurements are embedded as exact
rationals; the PNG bytes produced by one render are modelled as the list of
drawing commands the inline program issues, so byte-identity of files is
equality of command lists.
-/

/-- Line-cap style passed to the graphics context. -/
inductive LineCap
  | butt
  | round
  deriving DecidableEq, Repr

/-- Line-join style passed to the graphics context. -/
inductive LineJoin
  | miter
  | round
  deriving DecidableEq, Repr

/-- One drawing call of the inline per-size program (lines 26-63 of the
script), with exact rational arguments. -/
inductive Cmd
  | setFillRGBA (r g b a : ℚ)
  | fillRect (x y w h : ℚ)
  | addRoundedRectPath (x y w h cw ch : ℚ)
  | fillPath
  | setStrokeRGBA (r g b a : ℚ)
  | setLineWidth (w : ℚ)
  | setLineCap (c : LineCap)
  | setLineJoin (j : LineJoin)
  | moveTo (x y : ℚ)
  | lineTo (x y : ℚ)
  | strokePath
  deriving DecidableEq, Repr

/-- Border stroke width: `max(1, size * 0.015)` (script line 39). -/
def borderLineWidth (size : ℚ) : ℚ := max 1 (size * 0.015)

/-- Chevron x origin: `size * 0.25` (script line 45). -/
def chevX (size : ℚ) : ℚ := size * 0.25

/-- Chevron y origin: `size * 0.38` (script line 46). -/
def chevY (size : ℚ) : ℚ := size * 0.38

/-- Chevron width: `size * 0.18` (script line 47). -/
def chevW (size : ℚ) : ℚ := size * 0.18

/-- Chevron height: `size * 0.24` (script line 48). -/
def chevH (size : ℚ) : ℚ := size * 0.24

/-- Chevron stroke width: `max(2, size * 0.055)` (script line 49). -/
def chevronLineWidth (size : ℚ) : ℚ := max 2 (size * 0.055)

/-- The three points of the chevron stroke, in issue order:
`(x, y+h)`, `(x+w, y+h/2)`, `(x, y)` (script lines 52-54). -/
def chevronPoints (size : ℚ) : List (ℚ × ℚ) :=
  [(chevX size, chevY size + chevH size),
   (chevX size + chevW size, chevY size + chevH size / 2),
   (chevX size, chevY size)]

/-- Cursor x: `size * 0.5` (script line 59). -/
def cursorX (size : ℚ) : ℚ := size * 0.5

/-- Cursor y: `size * 0.38` (script line 60). -/
def cursorY (size : ℚ) : ℚ := size * 0.38

/-- Cursor width: `size * 0.22` (script line 61). -/
def cursorW (size : ℚ) : ℚ := size * 0.22

/-- Cursor height: `max(2, size * 0.045)` (script line 62). -/
def cursorH (size : ℚ) : ℚ := max 2 (size * 0.045)

/-- The full command sequence the inline drawing program issues for one size
(script lines 26-63, in source order). -/
def drawCommands (size : ℚ) : List Cmd :=
  [Cmd.setFillRGBA 0.08 0.08 0.1 1.0,
   Cmd.fillRect 0 0 size size,
   Cmd.setFillRGBA 0.12 0.12 0.15 1.0,
   Cmd.addRoundedRectPath (size * 0.08) (size * 0.08) (size * 0.84) (size * 0.84)
     (size * 0.18) (size * 0.18),
   Cmd.fillPath,
   Cmd.setStrokeRGBA 0.25 0.25 0.3 1.0,
   Cmd.setLineWidth (borderLineWidth size),
   Cmd.addRoundedRectPath (size * 0.08) (size * 0.08) (size * 0.84) (size * 0.84)
     (size * 0.18) (size * 0.18),
   Cmd.strokePath,
   Cmd.setStrokeRGBA 0.0 0.85 0.45 1.0,
   Cmd.setLineWidth (chevronLineWidth size),
   Cmd.setLineCap LineCap.round,
   Cmd.setLineJoin LineJoin.round,
   Cmd.moveTo (chevX size) (chevY size + chevH size),
   Cmd.lineTo (chevX size + chevW size) (chevY size + chevH size / 2),
   Cmd.lineTo (chevX size) (chevY size),
   Cmd.strokePath,
   Cmd.setFillRGBA 0.95 0.95 0.95 0.9,
   Cmd.fillRect (cursorX size) (cursorY size) (cursorW size) (cursorH size)]

/-- Contents of a file in our model: a PNG is the command list that rendered
it (equal command lists yield byte-identical encodings), plus the container
file and opaque pre-existing data. -/
inductive FileData
  | png (cmds : List Cmd)
  | icns
  | stale (id : Nat)
  deriving DecidableEq, Repr

/-- Filesystem: association list from path to contents; the first match wins. -/
abbrev FS := List (String × FileData)

/-- Look up a path. -/
def getFile (fs : FS) (p : String) : Option FileData :=
  (fs.find? (fun e => e.1 == p)).map (fun e => e.2)

/-- Write a path, replacing any previous entry. -/
def setFile (fs : FS) (p : String) (d : FileData) : FS :=
  (p, d) :: fs.filter (fun e => e.1 != p)

/-- `iconset_dir = "/tmp/Term.iconset"` (script line 10). -/
def iconsetDir : String := "/tmp/Term.iconset"

/-- Output path of the container (script line 85). -/
def icnsPath : String := "/tmp/Term.icns"

/-- `f"{iconset_dir}/icon_{size}x{size}.png"` (script line 16). -/
def pngPath (size : Nat) : String :=
  iconsetDir ++ "/icon_" ++ toString size ++ "x" ++ toString size ++ ".png"

/-- `f"{iconset_dir}/icon_{size}x{size}@2x.png"` (script line 78). -/
def png2xPath (size : Nat) : String :=
  iconsetDir ++ "/icon_" ++ toString size ++ "x" ++ toString size ++ "@2x.png"

/-- `sizes = [16, 32, 64, 128, 256, 512, 1024]` (script line 13). -/
def sizes : List Nat := [16, 32, 64, 128, 256, 512, 1024]

/-- The density-variant subset `[16, 32, 128, 256, 512]` (script line 76). -/
def variantSizes : List Nat := [16, 32, 128, 256, 512]

/-- Outcomes of the subprocess invocations and of the initial directory
state, supplied from outside the script.  The `cp` invocations are modelled
as succeeding here; `FullEnv` below also carries their exit statuses, and
`runScriptChecked_eq_of_cpOk` shows this record is the cp-success projection
of that full model. -/
structure Env where
  drawExit : Nat → Nat
  iconutilExit : Nat
  iconutilStderr : String
  dirExists : Bool

/-- Parent-process observable state: the filesystem and the console lines
printed so far (child prints are forwarded to the same console). -/
structure RunState where
  fs : FS
  output : List String
  deriving DecidableEq, Repr

/-- How a run can abort with an unhandled exception: directory creation,
a drawing child's `check=True`, or a `cp` invocation's `check=True`. -/
inductive Abort
  | mkdirFailed
  | drawFailed (size rc : Nat)
  | copyFailed (size rc : Nat)
  deriving DecidableEq, Repr

/-- Final outcome of a run: the state reached, and the abort cause if the
script died with an unhandled exception. -/
structure Result where
  state : RunState
  err : Option Abort
  deriving DecidableEq, Repr

/-- Process exit code of the script: 0 on normal termination, 1 when an
unhandled exception escapes. -/
def exitCode (r : Result) : Nat :=
  match r.err with
  | none => 0
  | some _ => 1

/-- `os.makedirs(iconset_dir, exist_ok=...)` (script line 11): fails only if
the directory exists and `exist_ok` is false. -/
def makedirs (alreadyExists existOk : Bool) : Option Abort :=
  if alreadyExists && !existOk then some Abort.mkdirFailed else none

/-- What a successful drawing child leaves on disk for one size. -/
def renderOutput (size : Nat) : FileData := FileData.png (drawCommands (size : ℚ))

/-- Effect of one successful drawing child (writes the PNG, prints its
`Created` line, script lines 66-71). -/
def writePng (st : RunState) (size : Nat) : RunState :=
  { fs := setFile st.fs (pngPath size) (renderOutput size),
    output := st.output ++ ["Created " ++ pngPath size] }

/-- The per-size render loop (script lines 15-73).  Each child runs with
`check=True`: a non-zero exit raises, stopping the loop at once and recording
the failing size and status. -/
def renderLoop (env : Env) (st : RunState) : List Nat → RunState × Option Abort
  | [] => (st, none)
  | s :: rest =>
    if env.drawExit s = 0 then renderLoop env (writePng st s) rest
    else (st, some (Abort.drawFailed s (env.drawExit s)))

/-- One iteration of the density-variant copy loop (script lines 76-81):
copy `icon_{2s}x{2s}.png` to `icon_{s}x{s}@2x.png` when the source exists,
otherwise do nothing.  This is the cp-success case; `copyStepChecked` below
keeps the failure path of the `check=True` on the `cp` call (line 80). -/
def copyStep (st : RunState) (size : Nat) : RunState :=
  match getFile st.fs (pngPath (2 * size)) with
  | some d =>
    { fs := setFile st.fs (png2xPath size) d,
      output := st.output ++ ["Created " ++ png2xPath size] }
  | none => st

/-- The density-variant copy loop over `variantSizes`. -/
def copyLoop (st : RunState) : List Nat → RunState
  | [] => st
  | s :: rest => copyLoop (copyStep st s) rest

/-- Success banner (script line 89). -/
def bannerLine : String := "\n✅ Icon created: /tmp/Term.icns"

/-- Install hint (script line 90). -/
def installLine : String :=
  "To install: cp /tmp/Term.icns ~/Applications/Term.app/Contents/Resources/"

/-- The `iconutil` invocation and status print (script lines 84-92): capture
exit status and stderr; on status 0 the container is produced and the banner
and install hint are printed, otherwise the captured stderr is printed.  No
exception escapes either way. -/
def packStep (env : Env) (st : RunState) : RunState :=
  if env.iconutilExit = 0 then
    { fs := setFile st.fs icnsPath FileData.icns,
      output := st.output ++ [bannerLine, installLine] }
  else
    { st with output := st.output ++ ["Error: " ++ env.iconutilStderr] }

/-- The whole script: `makedirs` (with `exist_ok=True`), the render loop, the
copy loop, the conversion step.  A drawing failure aborts before the copy
loop. -/
def runScript (env : Env) (initFs : FS) : Result :=
  match makedirs env.dirExists true with
  | some a => { state := { fs := initFs, output := [] }, err := some a }
  | none =>
    match renderLoop env { fs := initFs, output := [] } sizes with
    | (st, some a) => { state := st, err := some a }
    | (st, none) => { state := packStep env (copyLoop st variantSizes), err := none }

/-- Full subprocess environment: `Env` plus the exit status of the `cp`
invocation for each variant size (script line 80 also passes
`check=True`). -/
structure FullEnv where
  drawExit : Nat → Nat
  cpExit : Nat → Nat
  iconutilExit : Nat
  iconutilStderr : String
  dirExists : Bool

/-- Forget the `cp` statuses. -/
def FullEnv.toEnv (e : FullEnv) : Env :=
  { drawExit := e.drawExit, iconutilExit := e.iconutilExit,
    iconutilStderr := e.iconutilStderr, dirExists := e.dirExists }

/-- One iteration of the copy loop with the `cp` failure path represented
(script lines 76-81): when the source exists, `cp` runs with `check=True`,
so a non-zero cp exit status raises with that status recorded; when the
source is absent no process runs at all. -/
def copyStepChecked (env : FullEnv) (st : RunState) (size : Nat) :
    RunState × Option Abort :=
  match getFile st.fs (pngPath (2 * size)) with
  | some d =>
    if env.cpExit size = 0 then
      ({ fs := setFile st.fs (png2xPath size) d,
         output := st.output ++ ["Created " ++ png2xPath size] }, none)
    else (st, some (Abort.copyFailed size (env.cpExit size)))
  | none => (st, none)

/-- The density-variant copy loop with the `cp` failure path: the first
non-zero cp status stops the loop at once. -/
def copyLoopChecked (env : FullEnv) (st : RunState) :
    List Nat → RunState × Option Abort
  | [] => (st, none)
  | s :: rest =>
    match copyStepChecked env st s with
    | (st2, none) => copyLoopChecked env st2 rest
    | (st2, some a) => (st2, some a)

/-- Finish a run from the copy loop's outcome: a copy abort ends the script
before the conversion step; otherwise the conversion step runs. -/
def finishFromCopies (env : FullEnv) (r : RunState × Option Abort) : Result :=
  match r with
  | (st2, some a) => { state := st2, err := some a }
  | (st2, none) => { state := packStep env.toEnv st2, err := none }

/-- The whole script with every subprocess failure path represented: like
`runScript` but the copy loop may also abort (first non-zero `cp` status),
in which case the conversion step is never reached. -/
def runScriptChecked (env : FullEnv) (initFs : FS) : Result :=
  match makedirs env.dirExists true with
  | some a => { state := { fs := initFs, output := [] }, err := some a }
  | none =>
    match renderLoop env.toEnv { fs := initFs, output := [] } sizes with
    | (st, some a) => { state := st, err := some a }
    | (st, none) => finishFromCopies env (copyLoopChecked env st variantSizes)

/-!
Structural lemmas about the filesystem model and the loops.
-/

theorem getFile_cons (e : String × FileData) (fs : FS) (q : String) :
    getFile (e :: fs) q = if e.1 = q then some e.2 else getFile fs q := by
  by_cases h : e.1 = q
  · simp [getFile, List.find?_cons_of_pos, h]
  · simp [getFile, List.find?_cons_of_neg, h]

theorem getFile_filter_ne (fs : FS) (p q : String) (h : q ≠ p) :
    getFile (fs.filter (fun e => e.1 != p)) q = getFile fs q := by
  induction fs with
  | nil => rfl
  | cons e rest ih =>
    rw [List.filter_cons]
    by_cases hep : (e.1 != p) = true
    · rw [if_pos hep, getFile_cons, getFile_cons, ih]
    · have hep' : e.1 = p := by simpa using hep
      have hq : e.1 ≠ q := by rw [hep']; exact Ne.symm h
      rw [if_neg hep, getFile_cons, if_neg hq, ih]

theorem getFile_setFile (fs : FS) (p : String) (d : FileData) (q : String) :
    getFile (setFile fs p d) q = if q = p then some d else getFile fs q := by
  by_cases h : q = p
  · simp [setFile, getFile_cons, h]
  · rw [setFile, getFile_cons, if_neg (by simpa using Ne.symm h), if_neg h,
      getFile_filter_ne fs p q h]

/-- The state the render loop reaches when every child succeeds. -/
def applyRenders (st : RunState) (l : List Nat) : RunState := l.foldl writePng st

theorem renderLoop_eq_of_allZero (env : Env) (st : RunState) (l : List Nat)
    (h : ∀ s ∈ l, env.drawExit s = 0) :
    renderLoop env st l = (applyRenders st l, none) := by
  induction l generalizing st with
  | nil => rfl
  | cons s rest ih =>
    have hs : env.drawExit s = 0 := h s (by simp)
    rw [renderLoop, if_pos hs, ih _ (fun a ha => h a (by simp [ha]))]
    rfl

theorem renderLoop_append (env : Env) (st : RunState) (l1 l2 : List Nat) :
    renderLoop env st (l1 ++ l2) =
      match renderLoop env st l1 with
      | (st2, none) => renderLoop env st2 l2
      | (st2, some a) => (st2, some a) := by
  induction l1 generalizing st with
  | nil => simp [renderLoop]
  | cons p rest ih =>
    by_cases hp : env.drawExit p = 0
    · simp [renderLoop, hp, ih]
    · simp [renderLoop, hp]

theorem renderLoop_snd_none_iff (env : Env) (st : RunState) (l : List Nat) :
    (renderLoop env st l).2 = none ↔ ∀ s ∈ l, env.drawExit s = 0 := by
  induction l generalizing st with
  | nil => simp [renderLoop]
  | cons s rest ih =>
    by_cases hs : env.drawExit s = 0
    · simp [renderLoop, hs, ih]
    · simp [renderLoop, hs]

theorem renderLoop_snd_shape (env : Env) (st : RunState) (l : List Nat) :
    (renderLoop env st l).2 = none ∨
      ∃ s, (renderLoop env st l).2 = some (Abort.drawFailed s (env.drawExit s)) := by
  induction l generalizing st with
  | nil => exact Or.inl rfl
  | cons s rest ih =>
    by_cases hs : env.drawExit s = 0
    · rw [renderLoop, if_pos hs]; exact ih _
    · rw [renderLoop, if_neg hs]; exact Or.inr ⟨s, rfl⟩

theorem makedirs_existOk (b : Bool) : makedirs b true = none := by
  cases b <;> rfl

theorem runScript_of_allZero (env : Env) (initFs : FS)
    (h : ∀ s ∈ sizes, env.drawExit s = 0) :
    runScript env initFs =
      { state := packStep env
          (copyLoop (applyRenders { fs := initFs, output := [] } sizes) variantSizes),
        err := none } := by
  rw [runScript, makedirs_existOk, renderLoop_eq_of_allZero env _ sizes h]

theorem runScript_err (env : Env) (initFs : FS) :
    (runScript env initFs).err = (renderLoop env { fs := initFs, output := [] } sizes).2 := by
  rw [runScript, makedirs_existOk]
  rcases hr : renderLoop env { fs := initFs, output := [] } sizes with ⟨st, e⟩
  cases e <;> rfl

theorem getFile_applyRenders_not_mem (st : RunState) (l : List Nat) (q : String)
    (h : ∀ p ∈ l, pngPath p ≠ q) :
    getFile (applyRenders st l).fs q = getFile st.fs q := by
  induction l generalizing st with
  | nil => rfl
  | cons p rest ih =>
    have : getFile (applyRenders (writePng st p) rest).fs q = getFile (writePng st p).fs q :=
      ih _ (fun a ha => h a (by simp [ha]))
    rw [applyRenders, List.foldl_cons] at *
    rw [this, writePng, getFile_setFile, if_neg (fun hc => h p (by simp) hc.symm)]

theorem pngPath_inj_on_sizes :
    ∀ a ∈ sizes, ∀ b ∈ sizes, a ≠ b → pngPath a ≠ pngPath b := by decide

theorem sizes_nodup : sizes.Nodup := by decide

theorem base2x_paths_distinct :
    ∀ t ∈ variantSizes, ∀ u ∈ variantSizes, pngPath (2 * t) ≠ png2xPath u := by decide

/-- After a successful render pass, every variant slot's copy source is on
disk, whatever was there initially. -/
theorem sourcesPresent_after_renders (initFs : FS) :
    ∀ t ∈ variantSizes,
      getFile (applyRenders { fs := initFs, output := [] } sizes).fs (pngPath (2 * t)) =
        some (renderOutput (2 * t)) := by
  intro t ht
  simp only [variantSizes, List.mem_cons, List.not_mem_nil, or_false] at ht
  rcases ht with rfl | rfl | rfl | rfl | rfl <;>
    (simp only [sizes, applyRenders, List.foldl, writePng]
     simp +decide [getFile_setFile])

/-- When every `cp` succeeds, the checked copy loop is the simple one. -/
theorem copyLoopChecked_eq_of_allZero (env : FullEnv) (st : RunState) (l : List Nat)
    (h : ∀ s ∈ l, env.cpExit s = 0) :
    copyLoopChecked env st l = (copyLoop st l, none) := by
  induction l generalizing st with
  | nil => rfl
  | cons s rest ih =>
    have hs : env.cpExit s = 0 := h s (by simp)
    rw [copyLoopChecked, copyLoop, copyStepChecked, copyStep]
    rcases hg : getFile st.fs (pngPath (2 * s)) with _ | d <;>
      simp only [hs, if_pos] <;>
      exact ih _ (fun a ha => h a (by simp [ha]))

/-- Over a state where every copy source of `l` is present (and stays
present, the source paths being distinct from the written variant paths),
the checked copy loop ends without abort exactly when every `cp` on `l`
exits zero. -/
theorem copyLoopChecked_none_iff (env : FullEnv) (st : RunState) (l : List Nat)
    (hsrc : ∀ t ∈ l, ∃ d, getFile st.fs (pngPath (2 * t)) = some d)
    (hdist : ∀ t ∈ l, ∀ u ∈ l, pngPath (2 * t) ≠ png2xPath u) :
    (copyLoopChecked env st l).2 = none ↔ ∀ s ∈ l, env.cpExit s = 0 := by
  induction l generalizing st with
  | nil => simp [copyLoopChecked]
  | cons s rest ih =>
    obtain ⟨d, hd⟩ := hsrc s (by simp)
    by_cases hs : env.cpExit s = 0
    · rw [copyLoopChecked, copyStepChecked, hd]
      simp only [hs, if_pos]
      have hrest := ih
        { fs := setFile st.fs (png2xPath s) d,
          output := st.output ++ ["Created " ++ png2xPath s] }
        (fun t ht => by
          obtain ⟨d2, hd2⟩ := hsrc t (List.mem_cons_of_mem _ ht)
          refine ⟨d2, ?_⟩
          rw [getFile_setFile,
            if_neg (hdist t (List.mem_cons_of_mem _ ht) s (by simp)), hd2])
        (fun t ht u hu =>
          hdist t (List.mem_cons_of_mem _ ht) u (List.mem_cons_of_mem _ hu))
      rw [hrest, List.forall_mem_cons]
      simp [hs]
    · rw [copyLoopChecked, copyStepChecked, hd]
      simp only [hs, if_neg]
      constructor
      · intro h
        exact Option.noConfusion h
      · intro h
        exact absurd (h s (by simp)) hs

/-- Over a state where every copy source is present, the first `cp` failure
aborts the checked copy loop with that size and status. -/
theorem copyLoopChecked_fail (env : FullEnv) (st : RunState) (pre : List Nat)
    (s : Nat) (post : List Nat)
    (hsrc : ∀ t ∈ pre ++ s :: post, ∃ d, getFile st.fs (pngPath (2 * t)) = some d)
    (hdist : ∀ t ∈ pre ++ s :: post, ∀ u ∈ pre ++ s :: post,
      pngPath (2 * t) ≠ png2xPath u)
    (hpre : ∀ p ∈ pre, env.cpExit p = 0) (hfail : env.cpExit s ≠ 0) :
    (copyLoopChecked env st (pre ++ s :: post)).2 =
      some (Abort.copyFailed s (env.cpExit s)) := by
  induction pre generalizing st with
  | nil =>
    obtain ⟨d, hd⟩ := hsrc s (by simp)
    rw [List.nil_append, copyLoopChecked, copyStepChecked, hd]
    simp [hfail]
  | cons p pre2 ih =>
    obtain ⟨d, hd⟩ := hsrc p (by simp)
    have hp : env.cpExit p = 0 := hpre p (by simp)
    rw [List.cons_append, copyLoopChecked, copyStepChecked, hd]
    simp only [hp, if_pos]
    exact ih
      { fs := setFile st.fs (png2xPath p) d,
        output := st.output ++ ["Created " ++ png2xPath p] }
      (fun t ht => by
        obtain ⟨d2, hd2⟩ := hsrc t (List.mem_cons_of_mem _ ht)
        refine ⟨d2, ?_⟩
        rw [getFile_setFile,
          if_neg (hdist t (List.mem_cons_of_mem _ ht) p (by simp)), hd2])
      (fun t ht u hu =>
        hdist t (List.mem_cons_of_mem _ ht) u (List.mem_cons_of_mem _ hu))
      (fun q hq => hpre q (by simp [hq]))

/-- When every `cp` succeeds, the full model and the simplified `runScript`
coincide: the simplified model is the cp-success projection of this one. -/
theorem runScriptChecked_eq_of_cpOk (env : FullEnv) (initFs : FS)
    (hcp : ∀ s ∈ variantSizes, env.cpExit s = 0) :
    runScriptChecked env initFs = runScript env.toEnv initFs := by
  rw [runScriptChecked, runScript, makedirs_existOk, makedirs_existOk]
  rcases hr : renderLoop env.toEnv { fs := initFs, output := [] } sizes with ⟨st, e⟩
  cases e
  · show finishFromCopies env (copyLoopChecked env st variantSizes) = _
    rw [copyLoopChecked_eq_of_allZero env st variantSizes hcp]
    rfl
  · rfl

/-- After a successful render pass, the full-model run is decided by the
checked copy loop over the post-render state. -/
theorem runScriptChecked_of_renders (env : FullEnv) (initFs : FS)
    (hdraw : ∀ p ∈ sizes, env.drawExit p = 0) :
    runScriptChecked env initFs =
      finishFromCopies env
        (copyLoopChecked env (applyRenders { fs := initFs, output := [] } sizes)
          variantSizes) := by
  rw [runScriptChecked, makedirs_existOk,
    renderLoop_eq_of_allZero env.toEnv _ sizes hdraw]

/-- The full-model run ends without abort exactly when every drawing child
and every `cp` invocation exits zero; the conversion status never
aborts. -/
theorem runScriptChecked_err_none_iff (env : FullEnv) (initFs : FS) :
    (runScriptChecked env initFs).err = none ↔
      ((∀ s ∈ sizes, env.drawExit s = 0) ∧ ∀ s ∈ variantSizes, env.cpExit s = 0) := by
  by_cases hdraw : ∀ s ∈ sizes, env.drawExit s = 0
  · rw [runScriptChecked_of_renders env initFs hdraw]
    have hiff := copyLoopChecked_none_iff env
      (applyRenders { fs := initFs, output := [] } sizes) variantSizes
      (fun t ht => ⟨renderOutput (2 * t), sourcesPresent_after_renders initFs t ht⟩)
      base2x_paths_distinct
    rcases hc : copyLoopChecked env (applyRenders { fs := initFs, output := [] } sizes)
        variantSizes with ⟨st2, e2⟩
    rw [hc] at hiff
    cases e2 with
    | some a =>
      show some a = none ↔ _
      constructor
      · intro h
        exact Option.noConfusion h
      · intro h
        exact absurd (hiff.mpr h.2) (by simp)
    | none =>
      show (none : Option Abort) = none ↔ _
      constructor
      · intro _
        exact ⟨hdraw, hiff.mp rfl⟩
      · intro _
        rfl
  · rw [runScriptChecked, makedirs_existOk]
    rcases hr : renderLoop env.toEnv { fs := initFs, output := [] } sizes with ⟨st, e⟩
    have hiff := renderLoop_snd_none_iff env.toEnv { fs := initFs, output := [] } sizes
    rw [hr] at hiff
    cases e with
    | some a =>
      show some a = none ↔ _
      constructor
      · intro h
        exact Option.noConfusion h
      · intro h
        exact absurd h.1 hdraw
    | none =>
      exact absurd (hiff.mp rfl) hdraw

/-- After a successful render pass, the first failing `cp` aborts the
full-model run with that size and status. -/
theorem runScriptChecked_copy_fail (env : FullEnv) (initFs : FS) (pre : List Nat)
    (s : Nat) (post : List Nat) (hsplit : variantSizes = pre ++ s :: post)
    (hdraw : ∀ p ∈ sizes, env.drawExit p = 0) (hpre : ∀ p ∈ pre, env.cpExit p = 0)
    (hfail : env.cpExit s ≠ 0) :
    (runScriptChecked env initFs).err = some (Abort.copyFailed s (env.cpExit s)) := by
  rw [runScriptChecked_of_renders env initFs hdraw]
  have hsrcV : ∀ t ∈ variantSizes, ∃ d,
      getFile (applyRenders { fs := initFs, output := [] } sizes).fs
        (pngPath (2 * t)) = some d :=
    fun t ht => ⟨renderOutput (2 * t), sourcesPresent_after_renders initFs t ht⟩
  have hdistV := base2x_paths_distinct
  rw [hsplit] at hsrcV hdistV
  have h2 := copyLoopChecked_fail env (applyRenders { fs := initFs, output := [] } sizes)
    pre s post hsrcV hdistV hpre hfail
  rw [← hsplit] at h2
  rcases hc : copyLoopChecked env (applyRenders { fs := initFs, output := [] } sizes)
      variantSizes with ⟨st2, e2⟩
  rw [hc] at h2
  have h3 : e2 = some (Abort.copyFailed s (env.cpExit s)) := h2
  subst h3
  rfl

/-!
Claim theorems.
-/

/-- C6: Drawing measurements are deterministic functions of the size
parameter: at size 100 the cursor rectangle's width equals `22 = 100 * 0.22`,
its height equals `max(2, 4.5) = 4.5`, and the border stroke width equals
`max(1, 1.5) = 1.5`; these are the very values the drawing program issues. -/
theorem cursor_and_border_measurements_at_100 :
    cursorW 100 = 22 ∧ cursorW 100 = 100 * 0.22 ∧
    cursorH 100 = max 2 4.5 ∧ cursorH 100 = 4.5 ∧
    borderLineWidth 100 = max 1 1.5 ∧ borderLineWidth 100 = 1.5 ∧
    Cmd.fillRect (cursorX 100) (cursorY 100) (cursorW 100) (cursorH 100) ∈ drawCommands 100 ∧
    Cmd.setLineWidth (borderLineWidth 100) ∈ drawCommands 100 := by
  refine ⟨by norm_num [cursorW], by norm_num [cursorW], ?_, ?_, ?_, ?_, by simp [drawCommands],
    by simp [drawCommands]⟩ <;> norm_num [cursorH, borderLineWidth]

/-- C7: The chevron's three stroked points span exactly 25% to 43% of the
canvas horizontally and 38% to 62% vertically, and the stroke is issued with
rounded cap and join at line width `max(2, 0.055 * size)`. -/
theorem chevron_geometry (size : ℚ) (hpos : 0 ≤ size) :
    chevronPoints size =
      [(size * 0.25, size * 0.62), (size * 0.43, size * 0.5), (size * 0.25, size * 0.38)] ∧
    (∀ p ∈ chevronPoints size,
      size * 0.25 ≤ p.1 ∧ p.1 ≤ size * 0.43 ∧ size * 0.38 ≤ p.2 ∧ p.2 ≤ size * 0.62) ∧
    chevronLineWidth size = max 2 (size * 0.055) ∧
    (∃ l1 l2, drawCommands size =
      l1 ++
        [Cmd.setLineWidth (chevronLineWidth size), Cmd.setLineCap LineCap.round,
         Cmd.setLineJoin LineJoin.round, Cmd.moveTo (chevX size) (chevY size + chevH size),
         Cmd.lineTo (chevX size + chevW size) (chevY size + chevH size / 2),
         Cmd.lineTo (chevX size) (chevY size), Cmd.strokePath] ++ l2) := by
  have hpts : chevronPoints size =
      [(size * 0.25, size * 0.62), (size * 0.43, size * 0.5), (size * 0.25, size * 0.38)] := by
    simp only [chevronPoints, chevX, chevY, chevW, chevH]
    norm_num
    exact ⟨by ring, by ring, by ring⟩
  refine ⟨hpts, ?_, rfl, ?_⟩
  · rw [hpts]
    intro p hp
    simp only [List.mem_cons, List.not_mem_nil, or_false] at hp
    rcases hp with h | h | h <;> subst h <;>
      refine ⟨?_, ?_, ?_, ?_⟩ <;> simp only [] <;> nlinarith
  · exact ⟨[Cmd.setFillRGBA 0.08 0.08 0.1 1.0,
      Cmd.fillRect 0 0 size size,
      Cmd.setFillRGBA 0.12 0.12 0.15 1.0,
      Cmd.addRoundedRectPath (size * 0.08) (size * 0.08) (size * 0.84) (size * 0.84)
        (size * 0.18) (size * 0.18),
      Cmd.fillPath,
      Cmd.setStrokeRGBA 0.25 0.25 0.3 1.0,
      Cmd.setLineWidth (borderLineWidth size),
      Cmd.addRoundedRectPath (size * 0.08) (size * 0.08) (size * 0.84) (size * 0.84)
        (size * 0.18) (size * 0.18),
      Cmd.strokePath,
      Cmd.setStrokeRGBA 0.0 0.85 0.45 1.0],
      [Cmd.setFillRGBA 0.95 0.95 0.95 0.9,
       Cmd.fillRect (cursorX size) (cursorY size) (cursorW size) (cursorH size)], rfl⟩

/-- Witness for C7 at size 100. -/
theorem chevron_geometry_witness :
    chevronPoints 100 =
      [(100 * 0.25, 100 * 0.62), (100 * 0.43, 100 * 0.5), (100 * 0.25, 100 * 0.38)] :=
  (chevron_geometry 100 (by norm_num)).1

/-- C4: if the copy source `icon_{2s}x{2s}.png` is absent when the copy pass
runs, that copy step does nothing at all (no file written, nothing printed,
no failure), and independently a run never aborts from the copy or packaging
phase: the only abort cause is a drawing failure. -/
theorem missing_variant_source_skipped :
    (∀ (st : RunState) (s : Nat),
      getFile st.fs (pngPath (2 * s)) = none → copyStep st s = st) ∧
    (∀ (env : Env) (initFs : FS),
      (runScript env initFs).err = none ∨
        ∃ s, (runScript env initFs).err = some (Abort.drawFailed s (env.drawExit s))) := by
  constructor
  · intro st s h
    rw [copyStep, h]
  · intro env initFs
    rw [runScript_err]
    exact renderLoop_snd_shape env _ sizes

/-- Witness for C4: with an empty filesystem the 16-slot copy step is a
no-op. -/
theorem missing_variant_source_skipped_witness :
    copyStep { fs := [], output := [] } 16 = { fs := [], output := [] } :=
  missing_variant_source_skipped.1 { fs := [], output := [] } 16 rfl

/-- C1: when the run reaches the copy pass (all drawing children succeeded),
every density-variant file `icon_{s}x{s}@2x.png` holds exactly the same bytes
as the base file `icon_{2s}x{2s}.png`: it is the copied render of size `2s`,
not a re-render. -/
theorem variant_files_byte_identical (env : Env) (initFs : FS)
    (h : ∀ s ∈ sizes, env.drawExit s = 0) :
    ∀ s ∈ variantSizes,
      getFile (runScript env initFs).state.fs (png2xPath s) =
        getFile (runScript env initFs).state.fs (pngPath (2 * s)) ∧
      getFile (runScript env initFs).state.fs (png2xPath s) = some (renderOutput (2 * s)) := by
  intro s hs
  rw [runScript_of_allZero env initFs h]
  simp only [variantSizes, List.mem_cons, List.not_mem_nil, or_false] at hs
  rcases hs with rfl | rfl | rfl | rfl | rfl <;>
    (simp only [sizes, variantSizes, applyRenders, List.foldl, writePng, List.append_assoc]
     simp only [copyLoop, copyStep]
     by_cases hic : env.iconutilExit = 0 <;>
       simp +decide [getFile_setFile, packStep, hic])

/-- Witness for C1: a fresh all-successful run, checked at slot 16. -/
theorem variant_files_byte_identical_witness :
    getFile (runScript
        { drawExit := fun _ => 0, iconutilExit := 0, iconutilStderr := "", dirExists := false }
        []).state.fs (png2xPath 16) =
      getFile (runScript
        { drawExit := fun _ => 0, iconutilExit := 0, iconutilStderr := "", dirExists := false }
        []).state.fs (pngPath (2 * 16)) :=
  (variant_files_byte_identical _ [] (fun _ _ => rfl) 16 (by decide)).1

/-- C2: if `iconutil` exits non-zero, the script prints `Error: ` followed by
the captured stderr text and still terminates normally: no abort is recorded
and the process exit code is 0, not a distinct failure code. -/
theorem packaging_failure_reported_nonfatal (env : Env) (initFs : FS)
    (h : ∀ s ∈ sizes, env.drawExit s = 0) (hfail : env.iconutilExit ≠ 0) :
    (runScript env initFs).err = none ∧
    exitCode (runScript env initFs) = 0 ∧
    ("Error: " ++ env.iconutilStderr) ∈ (runScript env initFs).state.output ∧
    (runScript env initFs).state.output.getLast? = some ("Error: " ++ env.iconutilStderr) := by
  rw [runScript_of_allZero env initFs h]
  refine ⟨rfl, rfl, ?_, ?_⟩ <;>
    (simp only [sizes, variantSizes, applyRenders, List.foldl, writePng, List.append_assoc]
     simp only [copyLoop, copyStep]
     simp +decide [getFile_setFile, packStep, hfail])

/-- Witness for C2: all draws succeed, `iconutil` exits 1 with stderr
`boom`. -/
theorem packaging_failure_reported_nonfatal_witness :
    exitCode (runScript
      { drawExit := fun _ => 0, iconutilExit := 1, iconutilStderr := "boom", dirExists := false }
      []) = 0 ∧
    ("Error: " ++ "boom") ∈ (runScript
      { drawExit := fun _ => 0, iconutilExit := 1, iconutilStderr := "boom", dirExists := false }
      []).state.output :=
  ⟨(packaging_failure_reported_nonfatal _ [] (fun _ _ => rfl) (by decide)).2.1,
   (packaging_failure_reported_nonfatal _ [] (fun _ _ => rfl) (by decide)).2.2.1⟩

/-- C5: a drawing child exiting non-zero is fatal: the run aborts at that
size with the child's status recorded, the script's exit code is 1, and no
later size's file is touched. -/
theorem draw_failure_fatal (env : Env) (initFs : FS) (pre : List Nat) (s : Nat)
    (post : List Nat) (hsplit : sizes = pre ++ s :: post)
    (hpre : ∀ p ∈ pre, env.drawExit p = 0) (hfail : env.drawExit s ≠ 0) :
    (runScript env initFs).err = some (Abort.drawFailed s (env.drawExit s)) ∧
    exitCode (runScript env initFs) = 1 ∧
    ∀ t ∈ post, getFile (runScript env initFs).state.fs (pngPath t) =
      getFile initFs (pngPath t) := by
  have hr : renderLoop env { fs := initFs, output := [] } sizes =
      (applyRenders { fs := initFs, output := [] } pre,
        some (Abort.drawFailed s (env.drawExit s))) := by
    rw [hsplit, renderLoop_append, renderLoop_eq_of_allZero env _ pre hpre]
    simp [renderLoop, hfail]
  have hscript : runScript env initFs =
      { state := applyRenders { fs := initFs, output := [] } pre,
        err := some (Abort.drawFailed s (env.drawExit s)) } := by
    rw [runScript, makedirs_existOk, hr]
  refine ⟨by rw [hscript], by rw [hscript]; rfl, ?_⟩
  intro t ht
  rw [hscript]
  have hnd := sizes_nodup
  rw [hsplit, List.nodup_append] at hnd
  apply getFile_applyRenders_not_mem
  intro p hp
  have hps : p ∈ sizes := by rw [hsplit]; exact List.mem_append_left _ hp
  have hts : t ∈ sizes := by
    rw [hsplit]; exact List.mem_append_right _ (List.mem_cons_of_mem _ ht)
  have hne : p ≠ t := by
    intro hc
    exact hnd.2.2 hp (by rw [hc]; exact List.mem_cons_of_mem _ ht)
  exact pngPath_inj_on_sizes p hps t hts hne

/-- Witness for C5: size 64 fails with status 3 after 16 and 32 succeed; the
128 file is untouched. -/
theorem draw_failure_fatal_witness :
    (runScript
      { drawExit := fun s => if s = 64 then 3 else 0, iconutilExit := 0,
        iconutilStderr := "", dirExists := false } []).err =
      some (Abort.drawFailed 64 3) ∧
    getFile (runScript
      { drawExit := fun s => if s = 64 then 3 else 0, iconutilExit := 0,
        iconutilStderr := "", dirExists := false } []).state.fs (pngPath 128) =
      getFile [] (pngPath 128) :=
  ⟨(draw_failure_fatal _ [] [16, 32] 64 [128, 256, 512, 1024] (by decide) (by decide)
      (by decide)).1,
   (draw_failure_fatal _ [] [16, 32] 64 [128, 256, 512, 1024] (by decide) (by decide)
      (by decide)).2.2 128 (by decide)⟩

/-- Helper: the packaging step only appends console lines, so earlier lines
stay in the output. -/
theorem packStep_output_mono (env : Env) (st : RunState) (a : String)
    (h : a ∈ st.output) : a ∈ (packStep env st).output := by
  rw [packStep]; split <;> simp [h]

/-- C3 counterexample: with every drawing child exiting 1 while every `cp`
and the conversion utility would exit 0, the run aborts at size 16 with exit
code 1 — a non-conversion invocation's exit status was checked and acted
upon, so it is not true that only the final conversion invocation's status
is. -/
theorem only_conversion_status_checked_counterexample :
    (runScriptChecked
      { drawExit := fun _ => 1, cpExit := fun _ => 0, iconutilExit := 0,
        iconutilStderr := "", dirExists := false }
      []).err = some (Abort.drawFailed 16 1) ∧
    exitCode (runScriptChecked
      { drawExit := fun _ => 1, cpExit := fun _ => 0, iconutilExit := 0,
        iconutilStderr := "", dirExists := false }
      []) = 1 ∧
    ({ drawExit := fun _ => 1, cpExit := fun _ => 0, iconutilExit := 0,
        iconutilStderr := "", dirExists := false }
      : FullEnv).iconutilExit = 0 := by
  exact ⟨by decide, by decide, rfl⟩

/-- C3 amended: in the full model (every subprocess failure path kept) the
drawing and copy invocations all run with `check=True`, so their exit
statuses are checked and the first non-zero one aborts the run — the run
ends normally exactly when every drawing child and every `cp` exits zero,
and a failing `cp` aborts with its size and status — while the final
conversion invocation's status is checked non-fatally, selecting between the
install hint and the error print. -/
theorem subprocess_status_handling (env : FullEnv) (initFs : FS) :
    ((runScriptChecked env initFs).err = none ↔
      ((∀ s ∈ sizes, env.drawExit s = 0) ∧ ∀ s ∈ variantSizes, env.cpExit s = 0)) ∧
    (∀ pre s post, variantSizes = pre ++ s :: post →
      (∀ p ∈ sizes, env.drawExit p = 0) → (∀ p ∈ pre, env.cpExit p = 0) →
      env.cpExit s ≠ 0 →
      (runScriptChecked env initFs).err = some (Abort.copyFailed s (env.cpExit s))) ∧
    ((∀ p ∈ sizes, env.drawExit p = 0) → (∀ p ∈ variantSizes, env.cpExit p = 0) →
      (runScriptChecked env initFs).state.output.getLast? =
        some (if env.iconutilExit = 0 then installLine
          else "Error: " ++ env.iconutilStderr)) := by
  refine ⟨runScriptChecked_err_none_iff env initFs, ?_, ?_⟩
  · intro pre s post hsplit hdraw hpre hfail
    exact runScriptChecked_copy_fail env initFs pre s post hsplit hdraw hpre hfail
  · intro hdraw hcp
    rw [runScriptChecked_eq_of_cpOk env initFs hcp,
      runScript_of_allZero env.toEnv initFs hdraw]
    by_cases hic : env.iconutilExit = 0 <;>
      (simp only [sizes, variantSizes, applyRenders, List.foldl, writePng, List.append_assoc]
       simp only [copyLoop, copyStep]
       simp +decide [getFile_setFile, packStep, FullEnv.toEnv, hic])

/-- Witness for the C3 amendment: with all draws succeeding, a `cp` failure
with status 2 at slot 128 aborts the run with exactly that size and
status, even though the conversion utility would have exited 0. -/
theorem subprocess_status_handling_witness :
    (runScriptChecked
      { drawExit := fun _ => 0, cpExit := fun s => if s = 128 then 2 else 0,
        iconutilExit := 0, iconutilStderr := "", dirExists := false }
      []).err = some (Abort.copyFailed 128 2) := by
  have h := (subprocess_status_handling
    { drawExit := fun _ => 0, cpExit := fun s => if s = 128 then 2 else 0,
      iconutilExit := 0, iconutilStderr := "", dirExists := false }
    []).2.1 [16, 32] 128 [256, 512] (by decide) (fun _ _ => rfl)
    (by intro p hp; fin_cases hp <;> rfl) (by decide)
  exact h

/-- C8: a complete successful run from an empty directory writes exactly 7
base PNG files, exactly 5 density-variant PNG files and exactly 1 `.icns`
file (13 files in all), and the console output contains the success banner
and ends with the install hint. -/
theorem complete_run_artifact_counts (env : Env)
    (hdraw : ∀ s ∈ sizes, env.drawExit s = 0) (hpack : env.iconutilExit = 0) :
    (runScript env []).err = none ∧
    ((runScript env []).state.fs.filter
      (fun e => sizes.any (fun s => e.1 == pngPath s))).length = 7 ∧
    ((runScript env []).state.fs.filter
      (fun e => variantSizes.any (fun s => e.1 == png2xPath s))).length = 5 ∧
    ((runScript env []).state.fs.filter (fun e => e.1 == icnsPath)).length = 1 ∧
    (runScript env []).state.fs.length = 13 ∧
    bannerLine ∈ (runScript env []).state.output ∧
    (runScript env []).state.output.getLast? = some installLine := by
  rw [runScript_of_allZero env [] hdraw]
  simp +decide only [packStep, hpack, if_true]

/-- Witness for C8: the concrete all-successful run. -/
theorem complete_run_artifact_counts_witness :
    (runScript
      { drawExit := fun _ => 0, iconutilExit := 0, iconutilStderr := "", dirExists := false }
      []).state.fs.length = 13 :=
  (complete_run_artifact_counts _ (fun _ _ => rfl) rfl).2.2.2.2.1

/-- C9: each doubled variant size is itself a base size, so after all base
renders succeed every copy source exists when the copy pass runs and the
silent-skip branch is never taken: every variant's `Created` line is
printed. -/
theorem variant_sources_always_exist (env : Env) (initFs : FS)
    (h : ∀ s ∈ sizes, env.drawExit s = 0) :
    (∀ s ∈ variantSizes, 2 * s ∈ sizes) ∧
    (∀ s ∈ variantSizes,
      getFile (applyRenders { fs := initFs, output := [] } sizes).fs (pngPath (2 * s)) =
        some (renderOutput (2 * s))) ∧
    (∀ s ∈ variantSizes,
      ("Created " ++ png2xPath s) ∈ (runScript env initFs).state.output) := by
  refine ⟨by decide, ?_, ?_⟩
  · intro s hs
    simp only [variantSizes, List.mem_cons, List.not_mem_nil, or_false] at hs
    rcases hs with rfl | rfl | rfl | rfl | rfl <;>
      (simp only [sizes, applyRenders, List.foldl, writePng]
       simp +decide [getFile_setFile])
  · intro s hs
    rw [runScript_of_allZero env initFs h]
    apply packStep_output_mono
    simp only [variantSizes, List.mem_cons, List.not_mem_nil, or_false] at hs
    rcases hs with rfl | rfl | rfl | rfl | rfl <;>
      (simp only [sizes, variantSizes, applyRenders, List.foldl, writePng, List.append_assoc]
       simp only [copyLoop, copyStep]
       simp +decide [getFile_setFile])

/-- Witness for C9: doubling slot 16 lands on base size 32. -/
theorem variant_sources_always_exist_witness : 2 * 16 ∈ sizes :=
  (variant_sources_always_exist
    { drawExit := fun _ => 0, iconutilExit := 0, iconutilStderr := "", dirExists := false }
    [] (fun _ _ => rfl)).1 16 (by decide)

/-- C10: directory creation passes `exist_ok=True`, so a re-run with the
iconset directory already present never fails at that step, and when the
renders succeed every base slot holds the fresh render afterwards — prior
files at those paths are overwritten, not an error. -/
theorem rerun_directory_creation_safe (env : Env) (initFs : FS) :
    makedirs env.dirExists true = none ∧
    (runScript env initFs).err ≠ some Abort.mkdirFailed ∧
    ((∀ s ∈ sizes, env.drawExit s = 0) → ∀ s ∈ sizes,
      getFile (runScript env initFs).state.fs (pngPath s) = some (renderOutput s)) := by
  refine ⟨makedirs_existOk env.dirExists, ?_, ?_⟩
  · rw [runScript_err]
    rcases renderLoop_snd_shape env { fs := initFs, output := [] } sizes with hr | ⟨s, hr⟩ <;>
      rw [hr] <;> simp
  · intro h s hs
    rw [runScript_of_allZero env initFs h]
    simp only [sizes, List.mem_cons, List.not_mem_nil, or_false] at hs
    rcases hs with rfl | rfl | rfl | rfl | rfl | rfl | rfl <;>
      (simp only [sizes, variantSizes, applyRenders, List.foldl, writePng, List.append_assoc]
       simp only [copyLoop, copyStep]
       by_cases hic : env.iconutilExit = 0 <;>
         simp +decide [getFile_setFile, packStep, hic])

/-- Witness for C10: a stale file at the 16-slot path is overwritten by a
re-run over an existing directory. -/
theorem rerun_directory_creation_safe_witness :
    getFile (runScript
      { drawExit := fun _ => 0, iconutilExit := 0, iconutilStderr := "", dirExists := true }
      [(pngPath 16, FileData.stale 7)]).state.fs (pngPath 16) = some (renderOutput 16) :=
  (rerun_directory_creation_safe
    { drawExit := fun _ => 0, iconutilExit := 0, iconutilStderr := "", dirExists := true }
    [(pngPath 16, FileData.stale 7)]).2.2 (fun _ _ => rfl) 16 (by decide)
